import Mathlib

/-!
Shallow embedding of the rs-pod credential lifecycle manager
(src/api/oauth.rs) and session controller (src/app.rs, src/api/spotify.rs),
with theorems settling the specification claims about them.

I/O is modelled by passing the outcome of each external call as an explicit
argument: a transport-level failure is `Except.error ()`, a delivered HTTP
response is `Except.ok (status, body-decode-result)`.
-/

/-- Mirrors `TokenResponse` in src/api/oauth.rs: the JSON shape of the
provider's token endpoint response and of the persisted credential file. -/
structure TokenResponse where
  access_token : String
  token_type : String
  expires_in : Nat
  refresh_token : Option String
deriving Repr, DecidableEq

/-- `reqwest::StatusCode::is_success`: 2xx. -/
def isSuccess (status : Nat) : Bool :=
  200 ≤ status && status < 300

/-- The observable condition of the persisted credential file
(`TOKEN_FILE`) when `get_spotify_access_token` starts: absent, present but
`fs::read_to_string` fails, present but `serde_json::from_str` fails, or a
parsed record. -/
inductive FileState where
  | absent
  | unreadable
  | unparsable
  | record (t : TokenResponse)
deriving Repr, DecidableEq

/-- Error taxonomy for the embedded `get_spotify_access_token`: each
constructor marks which `?` (or final failure) produced the early return in
src/api/oauth.rs. -/
inductive OAuthError where
  | fileReadError
  | fileParseError
  | refreshTransportError
  | refreshDecodeError
  | authFailed
deriving Repr, DecidableEq

/-- An HTTP exchange outcome: transport failure, or a delivered response
with its status code and the result of decoding its body as `α`. -/
def HttpOutcome (α : Type) : Type :=
  Except Unit (Nat × Except Unit α)

/-- Result of one run of the embedded `get_spotify_access_token`, also
recording its side effects: every credential-file write in order, and
whether the refresh request and the full authorization were attempted. -/
structure OAuthRun where
  result : Except OAuthError String
  writes : List TokenResponse
  refreshAttempted : Bool
  fullAuthAttempted : Bool
deriving Repr

/-- The full-authorization tail of `get_spotify_access_token` (lines
102-113 of src/api/oauth.rs): run `authorize_spotify`, and on success
write the token file and return the access token. `refreshTried` records
whether the refresh branch ran before falling through. -/
def fullAuthTail (refreshTried : Bool) (authResult : Except Unit TokenResponse) :
    OAuthRun :=
  match authResult with
  | .ok t =>
      { result := .ok t.access_token
        writes := [t]
        refreshAttempted := refreshTried
        fullAuthAttempted := true }
  | .error _ =>
      { result := .error .authFailed
        writes := []
        refreshAttempted := refreshTried
        fullAuthAttempted := true }

/-- Embeds `SpotifyOAuth::get_spotify_access_token` (src/api/oauth.rs
lines 58-114). `file` is the state of the credential file,
`refreshResponse` the outcome of the token-refresh POST, `authResult` the
outcome of `authorize_spotify` if reached.

Control flow from the source: if the file exists, read it (`?`), parse it
(`?`); if it holds a refresh token, POST the refresh request (`?` on
transport error); on a success status decode the body (`?`), merge keeping
the stored refresh token, write, and return; on a non-success status fall
through; in all fall-through paths run full authorization, write its
token, and return. -/
def get_spotify_access_token (file : FileState)
    (refreshResponse : HttpOutcome TokenResponse)
    (authResult : Except Unit TokenResponse) : OAuthRun :=
  match file with
  | .unreadable =>
      { result := .error .fileReadError
        writes := []
        refreshAttempted := false
        fullAuthAttempted := false }
  | .unparsable =>
      { result := .error .fileParseError
        writes := []
        refreshAttempted := false
        fullAuthAttempted := false }
  | .record token_data =>
      match token_data.refresh_token with
      | some refresh_token =>
          match refreshResponse with
          | .error _ =>
              { result := .error .refreshTransportError
                writes := []
                refreshAttempted := true
                fullAuthAttempted := false }
          | .ok (status, body) =>
              if isSuccess status then
                match body with
                | .error _ =>
                    { result := .error .refreshDecodeError
                      writes := []
                      refreshAttempted := true
                      fullAuthAttempted := false }
                | .ok new_token =>
                    let merged_token : TokenResponse :=
                      { new_token with refresh_token := some refresh_token }
                    { result := .ok merged_token.access_token
                      writes := [merged_token]
                      refreshAttempted := true
                      fullAuthAttempted := false }
              else
                fullAuthTail true authResult
      | none => fullAuthTail false authResult
  | .absent => fullAuthTail false authResult

/-- A request hitting the local redirect listener (tiny_http on port 8888
in `authorize_spotify`): the path part of its URL and its parsed query
pairs. `request.url()` in the source is the path followed by the query
string, so a URL starting with "/callback" is a request whose path starts
with "/callback". -/
structure CallbackRequest where
  url_path : String
  query : List (String × String)
deriving Repr

/-- Rust's `str::starts_with` on strings, computed on the underlying
character lists. -/
def strStartsWith (s pre : String) : Bool :=
  pre.data.isPrefixOf s.data

/-- The listener loop of `authorize_spotify` (src/api/oauth.rs lines
147-160): scan incoming requests, ignore those whose URL does not start
with "/callback"; at the first one that does, take the value of its `code`
query parameter (if any), respond, and stop. Nothing in the loop reads the
`state` parameter. -/
def receiveCode : List CallbackRequest → Option String
  | [] => none
  | r :: rest =>
      if strStartsWith r.url_path "/callback" then
        (r.query.find? (fun p => p.1 == "code")).map Prod.snd
      else
        receiveCode rest

/-- Error outcomes of the embedded `authorize_spotify`. -/
inductive AuthorizeError where
  | codeNotFound
  | exchangeTransportError
  | exchangeDecodeError
deriving Repr, DecidableEq

/-- Embeds `SpotifyOAuth::authorize_spotify` (src/api/oauth.rs lines
117-184) from the point where the anti-forgery `state` has been generated.
`generatedState` is that token, `requests` the requests reaching the local
listener, and `exchange` maps the authorization code sent in the
`grant_type=authorization_code` POST to that call's outcome.

The source extracts `code` from the first "/callback" request, fails with
"authorization code not found" if there is none, and otherwise exchanges
it, decoding the response body directly. The `state` query parameter is
never compared against `generatedState`. -/
def authorize_spotify (generatedState : String)
    (requests : List CallbackRequest)
    (exchange : String → HttpOutcome TokenResponse) :
    Except AuthorizeError TokenResponse :=
  match receiveCode requests with
  | none => .error .codeNotFound
  | some code =>
      match exchange code with
      | .error _ => .error .exchangeTransportError
      | .ok (_, body) =>
          match body with
          | .error _ => .error .exchangeDecodeError
          | .ok token_json => .ok token_json

/-- Mirrors `Artist` in src/api/spotify.rs. -/
structure Artist where
  name : String
deriving Repr, DecidableEq

/-- Mirrors `Image` in src/api/spotify.rs. -/
structure Image where
  url : String
  height : Option Int
  width : Option Int
deriving Repr, DecidableEq

/-- Mirrors `Album` in src/api/spotify.rs. -/
structure Album where
  images : List Image
deriving Repr, DecidableEq

/-- Mirrors `Track` in src/api/spotify.rs. -/
structure Track where
  name : String
  artists : List Artist
  duration_ms : Int
  album : Album
deriving Repr, DecidableEq

/-- Mirrors `SpotifyPlayer` in src/api/spotify.rs: the cached playback
snapshot. -/
structure SpotifyPlayer where
  is_playing : Bool
  item : Option Track
  progress_ms : Option Int
deriving Repr, DecidableEq

/-- `impl Default for SpotifyPlayer` in src/api/spotify.rs. -/
def SpotifyPlayer.default : SpotifyPlayer :=
  { is_playing := false, item := none, progress_ms := none }

/-- Mirrors `PlaylistTracks` in src/api/spotify.rs. -/
structure PlaylistTracks where
  total : Int
deriving Repr, DecidableEq

/-- Mirrors `Playlist` in src/api/spotify.rs. -/
structure Playlist where
  id : String
  name : String
  tracks : PlaylistTracks
  images : List Image
deriving Repr, DecidableEq

/-- Error taxonomy of the embedded Remote Session Client calls: transport
failure, non-success HTTP status (carrying the status), or body decode
failure. -/
inductive SpotifyError where
  | transport
  | api (status : Nat)
  | decode
deriving Repr, DecidableEq

/-- Embeds `SpotifyClient::get_current_playback` (src/api/spotify.rs lines
91-110). `response` is the outcome of the GET: on transport error the `?`
propagates; a 204 status returns the default snapshot before anything
else; any other non-success status is an error carrying the status; a
success status decodes the body (`?` on decode failure). -/
def get_current_playback (response : HttpOutcome SpotifyPlayer) :
    Except SpotifyError SpotifyPlayer :=
  match response with
  | .error _ => .error .transport
  | .ok (status, body) =>
      if status == 204 then .ok SpotifyPlayer.default
      else if !isSuccess status then .error (.api status)
      else
        match body with
        | .error _ => .error .decode
        | .ok player => .ok player

/-- Mirrors `SkipDirection` in src/api/spotify.rs. -/
inductive SkipDirection where
  | next
  | previous
deriving Repr, DecidableEq

/-- Embeds `SpotifyClient::skip_track` (src/api/spotify.rs lines 112-132),
which mutates `self.spotify_player`; the embedding returns the new value
of that field alongside the call's result. `player` is the field before
the call, `postResponse` the outcome of the skip POST (its decoded body is
unused, so only the status matters), `playbackResponse` the outcome of the
follow-up `get_current_playback` GET.

The source: `?` on POST transport error; error on non-success POST status;
then re-fetch the snapshot, `?` on its failure; only a successful re-fetch
assigns `self.spotify_player`. -/
def skip_track (player : SpotifyPlayer) (_direction : SkipDirection)
    (postResponse : Except Unit Nat)
    (playbackResponse : HttpOutcome SpotifyPlayer) :
    SpotifyPlayer × Except SpotifyError Unit :=
  match postResponse with
  | .error _ => (player, .error .transport)
  | .ok status =>
      if !isSuccess status then (player, .error (.api status))
      else
        match get_current_playback playbackResponse with
        | .error e => (player, .error e)
        | .ok newPlayer => (newPlayer, .ok ())

/-- Mirrors `Page` in src/app.rs. -/
inductive Page where
  | playlistList
  | nowPlaying
deriving Repr, DecidableEq

/-- Key events the handlers in src/app.rs match on (`KeyCode`); `other`
stands for every key hitting the catch-all `_` arm. -/
inductive KeyCode where
  | char (c : Char)
  | up
  | down
  | enter
  | esc
  | left
  | right
  | other
deriving Repr, DecidableEq

/-- The fields of `App` (src/app.rs) the key handlers touch:
`playlist_state.selected()` is `selected`, the cached snapshot is
`spotify_player` (a field of the owned `SpotifyClient`). -/
structure AppState where
  current_page : Page
  playlists : List Playlist
  selected : Option Nat
  spotify_player : SpotifyPlayer
  current_track_name : Option String
  exit : Bool
deriving Repr, DecidableEq

/-- A remote command issued (awaited) by a key handler, recorded so that
theorems can speak about which requests a key press causes. -/
inductive Command where
  | playPlaylist (id : String)
  | skipPost (direction : SkipDirection)
  | fetchPlayback
deriving Repr, DecidableEq

/-- Initialization of the selection in `App::new` (src/app.rs lines
58-61): `ListState::default()` has no selection; select 0 when the fetched
playlist collection is non-empty. -/
def initialSelection (playlists : List Playlist) : Option Nat :=
  if playlists.isEmpty then none else some 0

/-- Embeds `App::handle_playlist_list_key` (src/app.rs lines 123-152).
`playResult` is the outcome of the `play_playlist` call when Enter fires;
the source discards it (`let _ =`), so it affects nothing. Returns the new
state and the commands issued.

Source arms: `'q'` sets `exit`; Up/`'k'` decrements the selection when it
is above 0; Down/`'j'` increments it when below `len - 1`; Enter, when a
selection exists and indexes into `playlists`, awaits `play_playlist` on
the selected playlist's id and sets the page to NowPlaying; everything
else does nothing. -/
def handle_playlist_list_key (s : AppState) (key : KeyCode)
    (_playResult : Except SpotifyError Unit) : AppState × List Command :=
  match key with
  | .char 'q' => ({ s with exit := true }, [])
  | .up | .char 'k' =>
      match s.selected with
      | some selected =>
          if selected > 0 then ({ s with selected := some (selected - 1) }, [])
          else (s, [])
      | none => (s, [])
  | .down | .char 'j' =>
      match s.selected with
      | some selected =>
          if selected < s.playlists.length - 1 then
            ({ s with selected := some (selected + 1) }, [])
          else (s, [])
      | none => (s, [])
  | .enter =>
      match s.selected with
      | some selected =>
          match s.playlists.get? selected with
          | some playlist =>
              ({ s with current_page := .nowPlaying },
               [.playPlaylist playlist.id])
          | none => (s, [])
      | none => (s, [])
  | _ => (s, [])

/-- The re-fetch GET inside `skip_track` is issued exactly when the skip
POST was delivered with a success status (src/api/spotify.rs lines
125-130): a transport error or non-success status returns before the
`get_current_playback` call. -/
def skipFetchTrace (postResponse : Except Unit Nat) : List Command :=
  match postResponse with
  | .ok status => if isSuccess status then [.fetchPlayback] else []
  | .error _ => []

/-- Embeds `App::handle_now_playing_key` (src/app.rs lines 154-172).
`postResponse` and `playbackResponse` are the outcomes of the two HTTP
calls inside `skip_track` when Left/Right fires; the handler discards
`skip_track`'s result (`let _ =`) but keeps its mutation of
`spotify_player`.

Source arms: `'q'` sets `exit`; Esc/`'p'` returns to the playlist page;
Left/Right await `skip_track` with the matching direction; everything else
does nothing. -/
def handle_now_playing_key (s : AppState) (key : KeyCode)
    (postResponse : Except Unit Nat)
    (playbackResponse : HttpOutcome SpotifyPlayer) :
    AppState × List Command :=
  match key with
  | .char 'q' => ({ s with exit := true }, [])
  | .esc | .char 'p' => ({ s with current_page := .playlistList }, [])
  | .left =>
      let r := skip_track s.spotify_player .previous postResponse playbackResponse
      ({ s with spotify_player := r.1 },
       .skipPost .previous :: skipFetchTrace postResponse)
  | .right =>
      let r := skip_track s.spotify_player .next postResponse playbackResponse
      ({ s with spotify_player := r.1 },
       .skipPost .next :: skipFetchTrace postResponse)
  | _ => (s, [])

/-- Embeds `App::handle_key_event` (src/app.rs lines 116-121): dispatch on
the current page. -/
def handle_key_event (s : AppState) (key : KeyCode)
    (playResult : Except SpotifyError Unit)
    (postResponse : Except Unit Nat)
    (playbackResponse : HttpOutcome SpotifyPlayer) :
    AppState × List Command :=
  match s.current_page with
  | .playlistList => handle_playlist_list_key s key playResult
  | .nowPlaying => handle_now_playing_key s key postResponse playbackResponse

/-- One key event together with the outcomes of whatever remote calls its
handling may make. -/
structure KeyEventInput where
  key : KeyCode
  playResult : Except SpotifyError Unit
  postResponse : Except Unit Nat
  playbackResponse : HttpOutcome SpotifyPlayer

/-- Dispatch a sequence of key events through `handle_key_event`,
threading the state. -/
def runKeyEvents (s : AppState) (events : List KeyEventInput) : AppState :=
  events.foldl
    (fun st e => (handle_key_event st e.key e.playResult e.postResponse e.playbackResponse).1)
    s

/-- The selection invariant the claims are about: an empty playlist
collection has no selection, and any selection indexes into the
collection. `App::new` establishes it via `initialSelection`. -/
def SelectionInv (s : AppState) : Prop :=
  (s.playlists = [] → s.selected = none) ∧
  (∀ i, s.selected = some i → i < s.playlists.length)

/-- Claim C10: if the persisted credential file exists but cannot be read
or parsed, `get_spotify_access_token` returns an error immediately,
attempting neither refresh nor full authorization. -/
theorem C10_corrupt_file_fatal (file : FileState)
    (refreshResponse : HttpOutcome TokenResponse)
    (authResult : Except Unit TokenResponse)
    (h : file = .unreadable ∨ file = .unparsable) :
    (∃ e, (get_spotify_access_token file refreshResponse authResult).result
        = .error e) ∧
    (get_spotify_access_token file refreshResponse authResult).refreshAttempted
        = false ∧
    (get_spotify_access_token file refreshResponse authResult).fullAuthAttempted
        = false ∧
    (get_spotify_access_token file refreshResponse authResult).writes = [] := by
  rcases h with h | h <;> subst h <;>
    exact ⟨⟨_, rfl⟩, rfl, rfl, rfl⟩

/-- Witness for C10 at a concrete corrupt file. -/
theorem C10_corrupt_file_fatal_witness :
    (∃ e, (get_spotify_access_token .unparsable (.error ()) (.error ())).result
        = .error e) ∧
    (get_spotify_access_token .unparsable (.error ()) (.error ())).refreshAttempted
        = false ∧
    (get_spotify_access_token .unparsable (.error ()) (.error ())).fullAuthAttempted
        = false ∧
    (get_spotify_access_token .unparsable (.error ()) (.error ())).writes = [] :=
  C10_corrupt_file_fatal .unparsable (.error ()) (.error ()) (Or.inr rfl)

/-- Claim C7: a snapshot fetch answered with HTTP 204 yields the default
snapshot (not playing, no track, no progress) rather than an error, and
any other non-success status yields an error carrying that status. -/
theorem C7_no_content_default_snapshot (status : Nat)
    (body : Except Unit SpotifyPlayer) :
    (status = 204 →
      get_current_playback (.ok (status, body)) =
        .ok { is_playing := false, item := none, progress_ms := none }) ∧
    (status ≠ 204 → isSuccess status = false →
      get_current_playback (.ok (status, body)) = .error (.api status)) := by
  constructor
  · intro h
    subst h
    rfl
  · intro h204 hfail
    simp [get_current_playback, h204, hfail]

/-- Witness for C7: status 204 with an undecodable body still yields the
default snapshot, and status 404 yields the typed error. -/
theorem C7_no_content_default_snapshot_witness :
    get_current_playback (.ok (204, .error ())) =
      .ok { is_playing := false, item := none, progress_ms := none } ∧
    get_current_playback (.ok (404, .error ())) = .error (.api 404) :=
  ⟨(C7_no_content_default_snapshot 204 (.error ())).1 rfl,
   (C7_no_content_default_snapshot 404 (.error ())).2 (by decide) (by decide)⟩

/-- Claim C4: for a stored record with a refresh token, a successful
refresh whose response lacks `refresh_token` persists exactly one record
whose refresh token equals the pre-refresh value. -/
theorem C4_refresh_token_preserved (old new : TokenResponse) (rt : String)
    (status : Nat) (authResult : Except Unit TokenResponse)
    (hrt : old.refresh_token = some rt)
    (hstatus : isSuccess status = true)
    (hnone : new.refresh_token = none) :
    ∃ w, (get_spotify_access_token (.record old) (.ok (status, .ok new))
            authResult).writes = [w] ∧
      w.refresh_token = old.refresh_token ∧
      (get_spotify_access_token (.record old) (.ok (status, .ok new))
            authResult).result = .ok w.access_token := by
  refine ⟨{ new with refresh_token := some rt }, ?_, ?_, ?_⟩ <;>
    simp [get_spotify_access_token, hrt, hstatus]

/-- Witness for C4: Scenario B of the spec — stored refresh token "R1",
response `{access_token:"T2", token_type:"Bearer", expires_in:3600}` with
no refresh token. -/
theorem C4_refresh_token_preserved_witness :
    ∃ w, (get_spotify_access_token
            (.record ⟨"T1", "Bearer", 3600, some "R1"⟩)
            (.ok (200, .ok ⟨"T2", "Bearer", 3600, none⟩))
            (.error ())).writes = [w] ∧
      w.refresh_token = (⟨"T1", "Bearer", 3600, some "R1"⟩ : TokenResponse).refresh_token ∧
      (get_spotify_access_token
            (.record ⟨"T1", "Bearer", 3600, some "R1"⟩)
            (.ok (200, .ok ⟨"T2", "Bearer", 3600, none⟩))
            (.error ())).result = .ok w.access_token :=
  C4_refresh_token_preserved ⟨"T1", "Bearer", 3600, some "R1"⟩
    ⟨"T2", "Bearer", 3600, none⟩ "R1" 200 (.error ()) rfl (by decide) rfl

/-- Counterexample to claim C3: stored refresh token "R1", refresh
response carrying a NEW refresh token "R2". The persisted record keeps
"R1": the source's merge (`refresh_token: Some(refresh_token.clone()),
..new_token`) overwrites the response's refresh token unconditionally, so
"take new value if present" fails for the refresh_token field. -/
theorem C3_new_refresh_token_discarded :
    (get_spotify_access_token
        (.record ⟨"T1", "Bearer", 3600, some "R1"⟩)
        (.ok (200, .ok ⟨"T2", "Bearer", 3600, some "R2"⟩))
        (.error ())).writes =
      [⟨"T2", "Bearer", 3600, some "R1"⟩] ∧
    (⟨"T2", "Bearer", 3600, some "R2"⟩ : TokenResponse).refresh_token
      = some "R2" ∧
    (some "R1" : Option String) ≠ some "R2" :=
  ⟨rfl, rfl, by decide⟩

/-- Amended claim C3: on a successful refresh the persisted record takes
`access_token`, `token_type` and `expires_in` from the provider's
response, and its `refresh_token` is always the pre-refresh one — also
when the response carries a new refresh token. -/
theorem C3_merge_rule (old new : TokenResponse) (rt : String)
    (status : Nat) (authResult : Except Unit TokenResponse)
    (hrt : old.refresh_token = some rt)
    (hstatus : isSuccess status = true) :
    (get_spotify_access_token (.record old) (.ok (status, .ok new))
        authResult).writes =
      [{ access_token := new.access_token
         token_type := new.token_type
         expires_in := new.expires_in
         refresh_token := old.refresh_token }] ∧
    (get_spotify_access_token (.record old) (.ok (status, .ok new))
        authResult).result = .ok new.access_token := by
  simp [get_spotify_access_token, hrt, hstatus]

/-- Witness for the amended C3 at a response that rotates the refresh
token. -/
theorem C3_merge_rule_witness :
    (get_spotify_access_token
        (.record ⟨"TA", "Bearer", 3600, some "RA"⟩)
        (.ok (200, .ok ⟨"TB", "Bearer", 7200, some "RB"⟩))
        (.error ())).writes =
      [{ access_token := "TB"
         token_type := "Bearer"
         expires_in := 7200
         refresh_token := (⟨"TA", "Bearer", 3600, some "RA"⟩ : TokenResponse).refresh_token }] ∧
    (get_spotify_access_token
        (.record ⟨"TA", "Bearer", 3600, some "RA"⟩)
        (.ok (200, .ok ⟨"TB", "Bearer", 7200, some "RB"⟩))
        (.error ())).result = .ok "TB" :=
  C3_merge_rule ⟨"TA", "Bearer", 3600, some "RA"⟩
    ⟨"TB", "Bearer", 7200, some "RB"⟩ "RA" 200 (.error ()) rfl (by decide)

/-- Counterexample to claim C2: a refresh attempt that fails at the
transport level (the `send().await?` errs) makes
`get_spotify_access_token` return an error to the caller; full
authorization is not attempted, even though it would have succeeded. -/
theorem C2_transport_error_is_fatal :
    (get_spotify_access_token
        (.record ⟨"T1", "Bearer", 3600, some "R1"⟩)
        (.error ())
        (.ok ⟨"T3", "Bearer", 3600, some "R3"⟩)).result
      = .error .refreshTransportError ∧
    (get_spotify_access_token
        (.record ⟨"T1", "Bearer", 3600, some "R1"⟩)
        (.error ())
        (.ok ⟨"T3", "Bearer", 3600, some "R3"⟩)).fullAuthAttempted = false :=
  ⟨rfl, rfl⟩

/-- Amended claim C2: for a stored record with a refresh token, only a
refresh answered with a non-success HTTP status falls through to full
authorization; a transport error, or a malformed body on a success
status, returns an error to the caller without attempting full
authorization. -/
theorem C2_refresh_fallback_rule (old : TokenResponse) (rt : String)
    (authResult : Except Unit TokenResponse)
    (hrt : old.refresh_token = some rt) :
    (∀ status body, isSuccess status = false →
      get_spotify_access_token (.record old) (.ok (status, body)) authResult
        = fullAuthTail true authResult ∧
      (get_spotify_access_token (.record old) (.ok (status, body))
          authResult).fullAuthAttempted = true) ∧
    ((get_spotify_access_token (.record old) (.error ()) authResult).result
        = .error .refreshTransportError ∧
     (get_spotify_access_token (.record old) (.error ())
         authResult).fullAuthAttempted = false) ∧
    (∀ status, isSuccess status = true →
      (get_spotify_access_token (.record old) (.ok (status, .error ()))
          authResult).result = .error .refreshDecodeError ∧
      (get_spotify_access_token (.record old) (.ok (status, .error ()))
          authResult).fullAuthAttempted = false) := by
  refine ⟨fun status body hfail => ?_, ⟨?_, ?_⟩, fun status hok => ?_⟩
  · constructor
    · simp [get_spotify_access_token, hrt, hfail]
    · simp [get_spotify_access_token, hrt, hfail, fullAuthTail]
      cases authResult <;> simp [fullAuthTail]
  · simp [get_spotify_access_token, hrt]
  · simp [get_spotify_access_token, hrt]
  · constructor <;> simp [get_spotify_access_token, hrt, hok]

/-- Witness for the amended C2: Scenario C of the spec — refresh answered
with HTTP 400 falls through to full authorization. -/
theorem C2_refresh_fallback_rule_witness :
    (get_spotify_access_token
        (.record ⟨"T1", "Bearer", 3600, some "R1"⟩)
        (.ok (400, .error ()))
        (.ok ⟨"T3", "Bearer", 3600, some "R3"⟩))
      = fullAuthTail true (.ok ⟨"T3", "Bearer", 3600, some "R3"⟩) ∧
    (get_spotify_access_token
        (.record ⟨"T1", "Bearer", 3600, some "R1"⟩)
        (.ok (400, .error ()))
        (.ok ⟨"T3", "Bearer", 3600, some "R3"⟩)).fullAuthAttempted = true :=
  (C2_refresh_fallback_rule ⟨"T1", "Bearer", 3600, some "R1"⟩ "R1"
      (.ok ⟨"T3", "Bearer", 3600, some "R3"⟩) rfl).1 400 (.error ()) (by decide)

/-- Claim C1 names required behavior the code does not implement: in
`authorize_spotify` the callback's `state` parameter is never compared
against the generated anti-forgery token. At a callback whose `state`
("EvilState") differs from the generated token ("GoodState"), the code
still extracts the authorization code, exchanges it, and succeeds —
instead of failing with a state mismatch. -/
theorem C1_mismatched_state_accepted :
    authorize_spotify "GoodState"
      [{ url_path := "/callback"
         query := [("code", "abc123"), ("state", "EvilState")] }]
      (fun code =>
        if code = "abc123" then
          .ok (200, .ok ⟨"T1", "Bearer", 3600, some "R1"⟩)
        else .error ())
      = .ok ⟨"T1", "Bearer", 3600, some "R1"⟩ ∧
    ("EvilState" : String) ≠ "GoodState" :=
  ⟨rfl, by decide⟩

theorem playlist_key_preserves_inv (s : AppState) (key : KeyCode)
    (pr : Except SpotifyError Unit) (h : SelectionInv s) :
    SelectionInv (handle_playlist_list_key s key pr).1 := by
  obtain ⟨h1, h2⟩ := h
  unfold handle_playlist_list_key
  repeat' split
  all_goals try exact ⟨h1, h2⟩
  all_goals
    refine ⟨fun hempty => absurd (h2 _ (by assumption)) ?_, fun i hi => ?_⟩
  all_goals try
    (dsimp only at hempty
     rw [hempty]
     simp)
  all_goals
    (have hlen := h2 _ (by assumption)
     dsimp only at hi ⊢
     injection hi with hi2
     omega)

theorem nowplaying_key_preserves_inv (s : AppState) (key : KeyCode)
    (po : Except Unit Nat) (pb : HttpOutcome SpotifyPlayer)
    (h : SelectionInv s) :
    SelectionInv (handle_now_playing_key s key po pb).1 := by
  obtain ⟨h1, h2⟩ := h
  unfold handle_now_playing_key
  repeat' split
  all_goals exact ⟨h1, h2⟩

theorem key_event_preserves_inv (s : AppState) (e : KeyEventInput)
    (h : SelectionInv s) :
    SelectionInv
      (handle_key_event s e.key e.playResult e.postResponse e.playbackResponse).1 := by
  unfold handle_key_event
  split
  · exact playlist_key_preserves_inv s e.key e.playResult h
  · exact nowplaying_key_preserves_inv s e.key e.postResponse e.playbackResponse h

theorem runKeyEvents_preserves_inv (events : List KeyEventInput) :
    ∀ s : AppState, SelectionInv s → SelectionInv (runKeyEvents s events) := by
  induction events with
  | nil => intro s h; exact h
  | cons e rest ih =>
      intro s h
      exact ih _ (key_event_preserves_inv s e h)

/-- Claim C5: from any state satisfying the selection invariant (as
`App::new` establishes via `initialSelection`), every sequence of key
events keeps the selection inside [0, len-1]; Up/'k' at index 0 and
Down/'j' at index len-1 clamp (no wraparound); and on an empty playlist
collection Enter leaves the state unchanged (no page change) and issues
no command. -/
theorem C5_selection_bounds (s : AppState) (hinv : SelectionInv s) :
    (∀ events, SelectionInv (runKeyEvents s events)) ∧
    (∀ pr, s.selected = some 0 →
      (handle_playlist_list_key s .up pr).1.selected = some 0 ∧
      (handle_playlist_list_key s (.char 'k') pr).1.selected = some 0) ∧
    (∀ pr i, s.selected = some i → i = s.playlists.length - 1 →
      (handle_playlist_list_key s .down pr).1.selected = some i ∧
      (handle_playlist_list_key s (.char 'j') pr).1.selected = some i) ∧
    (s.playlists = [] → ∀ pr, handle_playlist_list_key s .enter pr = (s, [])) := by
  refine ⟨fun events => runKeyEvents_preserves_inv events s hinv, ?_, ?_, ?_⟩
  · intro pr h0
    constructor <;> simp [handle_playlist_list_key, h0]
  · intro pr i hi hlast
    have hstop : ¬ i < s.playlists.length - 1 := by omega
    constructor <;> simp [handle_playlist_list_key, hi, hstop]
  · intro hempty pr
    have hsel := hinv.1 hempty
    simp [handle_playlist_list_key, hsel]

/-- Witness for C5: a two-playlist state with selection 0; two Down
presses keep the invariant. -/
theorem C5_selection_bounds_witness :
    SelectionInv (runKeyEvents
      { current_page := .playlistList
        playlists := [⟨"pl1", "Mix", ⟨3⟩, []⟩, ⟨"pl2", "Jazz", ⟨9⟩, []⟩]
        selected := some 0
        spotify_player := SpotifyPlayer.default
        current_track_name := none
        exit := false }
      [{ key := .down, playResult := .ok (), postResponse := .error ()
         playbackResponse := .error () },
       { key := .down, playResult := .ok (), postResponse := .error ()
         playbackResponse := .error () }]) :=
  (C5_selection_bounds _
    ⟨fun h => by simp at h, fun i hi => by simp at hi ⊢; omega⟩).1 _

theorem skip_track_fail_keeps_player (p : SpotifyPlayer) (d : SkipDirection)
    (po : Except Unit Nat) (pb : HttpOutcome SpotifyPlayer)
    (hfail : po = .error () ∨ (∃ st, po = .ok st ∧ isSuccess st = false) ∨
             (∃ e, get_current_playback pb = .error e)) :
    (skip_track p d po pb).1 = p := by
  rcases hfail with h | ⟨st, hpo, hst⟩ | ⟨e, he⟩
  · subst h; rfl
  · subst hpo
    simp [skip_track, hst]
  · cases po with
    | error u => rfl
    | ok st => cases hs : isSuccess st <;> simp [skip_track, hs, he]

/-- Claim C6: on the NowPlaying page, a Left/Right press whose skip
command fails (POST transport error, non-success POST status, or failing
re-fetch) leaves the whole state — page and cached snapshot included —
unchanged; the handler returns a plain state, so no error propagates out
of it. -/
theorem C6_failed_skip_no_change (s : AppState) (key : KeyCode)
    (pr : Except SpotifyError Unit) (po : Except Unit Nat)
    (pb : HttpOutcome SpotifyPlayer)
    (hpage : s.current_page = .nowPlaying)
    (hkey : key = .left ∨ key = .right)
    (hfail : po = .error () ∨ (∃ st, po = .ok st ∧ isSuccess st = false) ∨
             (∃ e, get_current_playback pb = .error e)) :
    (handle_key_event s key pr po pb).1 = s := by
  have hkeepN := skip_track_fail_keeps_player s.spotify_player .next po pb hfail
  have hkeepP := skip_track_fail_keeps_player s.spotify_player .previous po pb hfail
  obtain ⟨cp, pls, sel, sp, ctn, ex⟩ := s
  dsimp only at hpage hkeepN hkeepP
  subst hpage
  rcases hkey with hk | hk <;> subst hk <;>
    simp [handle_key_event, handle_now_playing_key, hkeepN, hkeepP]

/-- Witness for C6: a Right press with a transport-level skip failure on
a concrete NowPlaying state. -/
theorem C6_failed_skip_no_change_witness :
    (handle_key_event
      { current_page := .nowPlaying, playlists := [], selected := none
        spotify_player := SpotifyPlayer.default, current_track_name := none
        exit := false }
      .right (.ok ()) (.error ()) (.error ())).1 =
      { current_page := .nowPlaying, playlists := [], selected := none
        spotify_player := SpotifyPlayer.default, current_track_name := none
        exit := false } :=
  C6_failed_skip_no_change _ .right (.ok ()) (.error ()) (.error ())
    rfl (Or.inr rfl) (Or.inl rfl)

/-- Claim C8: on the PlaylistList page with a selection indexing into the
collection, Enter issues the start-playback command for the selected
playlist and switches the page to NowPlaying, whatever the play command's
outcome `pr` is. -/
theorem C8_enter_plays_selected (s : AppState) (i : Nat) (pl : Playlist)
    (pr : Except SpotifyError Unit) (po : Except Unit Nat)
    (pb : HttpOutcome SpotifyPlayer)
    (hpage : s.current_page = .playlistList)
    (hsel : s.selected = some i)
    (hget : s.playlists.get? i = some pl) :
    handle_key_event s .enter pr po pb =
      ({ s with current_page := .nowPlaying }, [.playPlaylist pl.id]) := by
  have hget2 : s.playlists[i]? = some pl := by
    rw [← List.get?_eq_getElem?]
    exact hget
  simp [handle_key_event, hpage, handle_playlist_list_key, hsel, hget2]

/-- Witness for C8: Enter with a FAILED play command still transitions
the page and issues the command. -/
theorem C8_enter_plays_selected_witness :
    handle_key_event
      { current_page := .playlistList
        playlists := [⟨"pl1", "Mix", ⟨3⟩, []⟩]
        selected := some 0
        spotify_player := SpotifyPlayer.default
        current_track_name := none
        exit := false }
      .enter (.error .transport) (.error ()) (.error ()) =
      ({ current_page := .nowPlaying
         playlists := [⟨"pl1", "Mix", ⟨3⟩, []⟩]
         selected := some 0
         spotify_player := SpotifyPlayer.default
         current_track_name := none
         exit := false }, [.playPlaylist "pl1"]) :=
  C8_enter_plays_selected _ 0 ⟨"pl1", "Mix", ⟨3⟩, []⟩
    (.error .transport) (.error ()) (.error ()) rfl rfl rfl

/-- Claim C9: on the NowPlaying page, when the skip POST is answered with
a success status and the immediate re-fetch yields snapshot `p`, the key
handler replaces the cached snapshot with `p` wholesale within that same
key-handling step, and its command trace is exactly the skip POST
followed by the playback fetch. -/
theorem C9_skip_success_refetches (s : AppState) (key : KeyCode)
    (pr : Except SpotifyError Unit) (status : Nat)
    (pb : HttpOutcome SpotifyPlayer) (p : SpotifyPlayer)
    (hpage : s.current_page = .nowPlaying)
    (hkey : key = .left ∨ key = .right)
    (hstatus : isSuccess status = true)
    (hfetch : get_current_playback pb = .ok p) :
    (handle_key_event s key pr (.ok status) pb).1 =
      { s with spotify_player := p } ∧
    (handle_key_event s key pr (.ok status) pb).2 =
      [.skipPost (if key = .left then .previous else .next), .fetchPlayback] := by
  rcases hkey with hk | hk <;> subst hk <;> constructor <;>
    simp [handle_key_event, hpage, handle_now_playing_key, skip_track,
          hstatus, hfetch, skipFetchTrace]

/-- Witness for C9: a Right press whose POST returns 204 and whose
re-fetch returns the default snapshot. -/
theorem C9_skip_success_refetches_witness :
    (handle_key_event
      { current_page := .nowPlaying, playlists := [], selected := none
        spotify_player := { is_playing := true, item := none, progress_ms := some 10 }
        current_track_name := none, exit := false }
      .right (.ok ()) (.ok 204) (.ok (204, .error ()))).1 =
      { current_page := .nowPlaying, playlists := [], selected := none
        spotify_player := SpotifyPlayer.default
        current_track_name := none, exit := false } ∧
    (handle_key_event
      { current_page := .nowPlaying, playlists := [], selected := none
        spotify_player := { is_playing := true, item := none, progress_ms := some 10 }
        current_track_name := none, exit := false }
      .right (.ok ()) (.ok 204) (.ok (204, .error ()))).2 =
      [.skipPost (if KeyCode.right = KeyCode.left then .previous else .next),
       .fetchPlayback] :=
  C9_skip_success_refetches _ .right (.ok ()) 204 (.ok (204, .error ()))
    SpotifyPlayer.default rfl (Or.inr rfl) (by decide) rfl
